import Mathlib

/-!
Verification of the commitment lifecycle engine
(`backend/commitments/models.py`, `backend/commitments/services.py`).

The Python model classes `Commitment`, `Complaint` and `EvidenceVerification`
are embedded as Lean structures; each state-changing method becomes a pure
function from the record (plus the injected current time, replacing
`timezone.now()`) to either an error (`Except.error`, modelling a raised
`ValueError`) or the updated record.  Django's `save()` inside a method that
cannot raise afterwards is modelled by simply returning the updated record;
where the source can raise *after* a save has already been issued, the
outcome type keeps the persisted records alongside the escaped exception.
-/

namespace Commitments

/-- Calendar timestamp: year, month (1..12), day (1..days in month) and
second within the day.  Mirrors the aware `datetime` values the source
compares and shifts. -/
structure DateTime where
  year : Nat
  month : Nat
  day : Nat
  sec : Nat
deriving DecidableEq, BEq, Repr

/-- Gregorian leap-year rule, as used by `datetime` / `dateutil`. -/
def isLeapYear (y : Nat) : Bool :=
  (y % 4 == 0 && y % 100 != 0) || y % 400 == 0

/-- Number of days in a month of a given year. -/
def daysInMonth (y m : Nat) : Nat :=
  if m == 2 then (if isLeapYear y then 29 else 28)
  else if m == 4 || m == 6 || m == 9 || m == 11 then 30
  else 31

/-- Advance a timestamp by one calendar day (time of day unchanged),
rolling over month and year boundaries. -/
def DateTime.nextDay (d : DateTime) : DateTime :=
  if d.day < daysInMonth d.year d.month then
    { d with day := d.day + 1 }
  else if d.month < 12 then
    { d with month := d.month + 1, day := 1 }
  else
    { d with year := d.year + 1, month := 1, day := 1 }

/-- `timedelta(days = n)`: advance by `n` calendar days. -/
def DateTime.addDays : DateTime → Nat → DateTime
  | d, 0 => d
  | d, n + 1 => DateTime.addDays d.nextDay n

/-- `relativedelta(months = 1)`: advance the month by one, rolling the year,
and clamp the day to the last valid day of the target month. -/
def DateTime.addMonths1 (d : DateTime) : DateTime :=
  let y := if d.month == 12 then d.year + 1 else d.year
  let m := if d.month == 12 then 1 else d.month + 1
  { d with year := y, month := m, day := min d.day (daysInMonth y m) }

/-- Strict chronological order on timestamps (`<` on Python datetimes):
lexicographic on year, month, day, second. -/
def DateTime.ltb (a b : DateTime) : Bool :=
  Nat.blt a.year b.year ||
    (a.year == b.year && (Nat.blt a.month b.month ||
      (a.month == b.month && (Nat.blt a.day b.day ||
        (a.day == b.day && Nat.blt a.sec b.sec)))))

/-- Chronological `<=` on timestamps. -/
def DateTime.leb (a b : DateTime) : Bool :=
  a == b || DateTime.ltb a b

/-- `Commitment.STATUS_CHOICES`. -/
inductive CStatus
  | draft
  | active
  | completed
  | failed
  | cancelled
  | paused
  | appealed
  | under_review
deriving DecidableEq, BEq, Repr

/-- `Commitment.EVIDENCE_TYPE_CHOICES`. -/
inductive EvidenceType
  | photo
  | timelapse_video
  | self_verification
  | manual
deriving DecidableEq, BEq, Repr

/-- `Commitment.STAKE_TYPE_CHOICES`. -/
inductive StakeType
  | social
  | points
  | money
deriving DecidableEq, BEq, Repr

/-- `Commitment.FREQUENCY_CHOICES`. -/
inductive Frequency
  | daily
  | weekly
  | monthly
  | one_time
  | custom
deriving DecidableEq, BEq, Repr

/-- `Commitment.LENIENCY_CHOICES`. -/
inductive Leniency
  | lenient
  | normal
  | hard
deriving DecidableEq, BEq, Repr

/-- `Commitment.CURRENCY_CHOICES`. -/
inductive Currency
  | inr
  | usd
  | eur
  | gbp
deriving DecidableEq, BEq, Repr

/-- The `Commitment` Django model: the fields its state-machine methods and
the recurrence spawn read or write.  `stake_amount` is in minor currency
units (`Decimal` with two places in the source). -/
structure Commitment where
  title : String
  description : String
  start_time : DateTime
  end_time : DateTime
  frequency : Frequency
  custom_days : String
  stake_type : StakeType
  stake_amount : Option Int
  currency : Currency
  leniency : Leniency
  evidence_required : Bool
  evidence_type : EvidenceType
  evidence_file : Option String
  evidence_text : String
  evidence_submitted : Bool
  evidence_submitted_at : Option DateTime
  complaints_flagged : Bool
  complaint : Option String
  completed_at : Option DateTime
  activated_at : Option DateTime
  status : CStatus
deriving DecidableEq, BEq, Repr

/-- `Commitment.mark_completed`: rejects terminal and failed statuses, then
requires self-verification or `under_review`; on success sets the status to
`completed` and stamps `completed_at`. -/
def Commitment.mark_completed (c : Commitment) (now : DateTime) :
    Except String Commitment :=
  if c.status = CStatus.completed ∨ c.status = CStatus.cancelled then
    Except.error "Cannot mark completed or cancelled contract as completed"
  else if c.status = CStatus.failed then
    Except.error "Cannot mark failed contract as completed. Use complaint system to appeal."
  else if c.evidence_type ≠ EvidenceType.self_verification ∧ c.status ≠ CStatus.under_review then
    Except.error "This contract requires evidence verification before completion"
  else
    Except.ok { c with status := CStatus.completed, completed_at := some now }

/-- `Commitment.mark_failed`: rejects terminal statuses and an already-failed
contract; on success sets status `failed`, stamps `completed_at`, and stores
the reason in `complaint` when one is given. -/
def Commitment.mark_failed (c : Commitment) (reason : String) (now : DateTime) :
    Except String Commitment :=
  if c.status = CStatus.completed ∨ c.status = CStatus.cancelled then
    Except.error "Cannot mark completed or cancelled contract as failed"
  else if c.status = CStatus.failed then
    Except.error "Contract is already marked as failed"
  else
    Except.ok { c with
      status := CStatus.failed,
      complaint := if reason ≠ "" then some reason else c.complaint,
      completed_at := some now }

/-- `Commitment.submit_evidence`: only from `active`/`paused`, requires an
evidence type when `evidence_required`, rejects past-deadline submission;
stores the payload (an argument `evidence_type` overwrites the stored one),
marks evidence submitted, and moves to `under_review` unless the (updated)
evidence type is self-verification. -/
def Commitment.submit_evidence (c : Commitment) (evidence_type : Option EvidenceType)
    (evidence_data : Option String) (evidence_text : String) (now : DateTime) :
    Except String Commitment :=
  if ¬ (c.status = CStatus.active ∨ c.status = CStatus.paused) then
    Except.error "Cannot submit evidence for this contract"
  else if c.evidence_required ∧ evidence_type = none then
    Except.error "Evidence type is required for this contract"
  else if DateTime.ltb c.end_time now then
    Except.error "Cannot submit evidence after deadline"
  else
    let c1 := match evidence_type with
      | some t => { c with evidence_type := t }
      | none => c
    let c2 := match evidence_data with
      | some d => { c1 with evidence_file := some d }
      | none => c1
    let c3 := if evidence_text ≠ "" then { c2 with evidence_text := evidence_text } else c2
    let c4 := { c3 with evidence_submitted := true, evidence_submitted_at := some now }
    if c4.evidence_type = EvidenceType.self_verification then
      Except.ok c4
    else
      Except.ok { c4 with status := CStatus.under_review }

/-- `Commitment.activate`: only a draft with a future deadline; sets status
`active` and stamps `activated_at`. -/
def Commitment.activate (c : Commitment) (now : DateTime) : Except String Commitment :=
  if c.status ≠ CStatus.draft then
    Except.error "Only draft contracts can be activated"
  else if DateTime.leb c.end_time now then
    Except.error "Cannot activate contract with past deadline"
  else
    Except.ok { c with status := CStatus.active, activated_at := some now }

/-- `Commitment.pause`: only from `active` or `under_review`. -/
def Commitment.pause (c : Commitment) : Except String Commitment :=
  if ¬ (c.status = CStatus.active ∨ c.status = CStatus.under_review) then
    Except.error "Only active or under_review contracts can be paused"
  else
    Except.ok { c with status := CStatus.paused }

/-- `Commitment.resume`: only from `paused` and not overdue; returns to
`under_review` when evidence was already submitted, else to `active`. -/
def Commitment.resume (c : Commitment) (now : DateTime) : Except String Commitment :=
  if c.status ≠ CStatus.paused then
    Except.error "Only paused contracts can be resumed"
  else if DateTime.ltb c.end_time now then
    Except.error "Cannot resume overdue contract. Please create a new commitment."
  else if c.evidence_submitted then
    Except.ok { c with status := CStatus.under_review }
  else
    Except.ok { c with status := CStatus.active }

/-- `Commitment.cancel`: rejected from `completed`, `failed`, `cancelled`. -/
def Commitment.cancel (c : Commitment) : Except String Commitment :=
  if c.status = CStatus.completed ∨ c.status = CStatus.failed ∨ c.status = CStatus.cancelled then
    Except.error "Cannot cancel this contract"
  else
    Except.ok { c with status := CStatus.cancelled }

/-- The record built by the `Commitment.objects.create(...)` call inside
`create_next_instance`.  Fields absent from that call take the Django field
defaults; in particular `stake_type` is not passed and therefore defaults to
`social`, and evidence payload / submission flags reset. -/
def Commitment.spawnedInstance (c : Commitment) (next_start next_end : DateTime)
    (now : DateTime) : Commitment :=
  { title := c.title
    description := c.description
    start_time := next_start
    end_time := next_end
    frequency := c.frequency
    custom_days := c.custom_days
    stake_type := StakeType.social
    stake_amount := c.stake_amount
    currency := c.currency
    leniency := c.leniency
    evidence_required := c.evidence_required
    evidence_type := c.evidence_type
    evidence_file := none
    evidence_text := ""
    evidence_submitted := false
    evidence_submitted_at := none
    complaints_flagged := false
    complaint := none
    completed_at := none
    activated_at := some now
    status := CStatus.active }

/-- `Commitment.create_next_instance`: `one_time` (and the fall-through
`custom` branch) spawn nothing; daily/weekly/monthly shift both window
bounds by one day / one week / one calendar month and create the successor
record. -/
def Commitment.create_next_instance (c : Commitment) (now : DateTime) :
    Option Commitment :=
  if c.frequency = Frequency.one_time then
    none
  else
    match c.frequency with
    | Frequency.daily =>
        some (c.spawnedInstance (c.start_time.addDays 1) (c.end_time.addDays 1) now)
    | Frequency.weekly =>
        some (c.spawnedInstance (c.start_time.addDays 7) (c.end_time.addDays 7) now)
    | Frequency.monthly =>
        some (c.spawnedInstance c.start_time.addMonths1 c.end_time.addMonths1 now)
    | _ => none

/-- `Complaint.STATUS_CHOICES`. -/
inductive ComplaintStatus
  | pending
  | under_review
  | approved
  | rejected
deriving DecidableEq, BEq, Repr

/-- The `Complaint` Django model: the fields its review methods touch.
Users are identified by an opaque id. -/
structure Complaint where
  status : ComplaintStatus
  reviewed_by : Option Nat
  review_notes : String
  reviewed_at : Option DateTime
  refund_amount : Option Int
  refund_processed : Bool
deriving DecidableEq, BEq, Repr

/-- `Complaint.approve`: rejects an already-resolved complaint; otherwise
marks the complaint approved with reviewer/notes/timestamp, defaults the
refund to the parent's full stake, and — only when the parent commitment is
currently `failed` — moves the parent to `appealed`.  The whole body runs in
one transaction, so it is a single atomic update of both records. -/
def Complaint.approve (cp : Complaint) (c : Commitment) (reviewed_by : Nat)
    (review_notes : String) (refund_amount : Option Int) (now : DateTime) :
    Except String (Complaint × Commitment) :=
  if cp.status = ComplaintStatus.approved ∨ cp.status = ComplaintStatus.rejected then
    Except.error "Cannot approve complaint with this status"
  else
    let cp1 := { cp with
      status := ComplaintStatus.approved,
      reviewed_by := some reviewed_by,
      review_notes := review_notes,
      reviewed_at := some now,
      refund_amount := match refund_amount with
        | some a => some a
        | none => c.stake_amount }
    let c1 := if c.status = CStatus.failed then { c with status := CStatus.appealed } else c
    Except.ok (cp1, c1)

/-- `EvidenceVerification.STATUS_CHOICES`. -/
inductive VStatus
  | pending
  | approved
  | rejected
  | needs_more_info
deriving DecidableEq, BEq, Repr

/-- The `EvidenceVerification` Django model. -/
structure EvidenceVerification where
  status : VStatus
  verified_by : Option Nat
  notes : String
  verified_at : Option DateTime
deriving DecidableEq, BEq, Repr

/-- Outcome of `EvidenceVerification.approve`.  In the source the
`transaction.atomic()` block wraps only the initial status check; the
verification is saved before the parent is touched, so when the nested
`mark_completed` raises, the already-saved verification record survives.
`raised` carries the escaped exception, `verification`/`commitment` the
persisted final states. -/
structure VApproveOutcome where
  raised : Option String
  verification : EvidenceVerification
  commitment : Commitment
deriving DecidableEq, BEq, Repr

/-- `EvidenceVerification.approve`: rejects an already-resolved
verification; otherwise saves the verification as `approved` and then, only
when the parent commitment is `active` or `under_review`, calls the
parent's `mark_completed` (whose failure escapes after the verification was
saved).  Any other parent status is silently skipped. -/
def EvidenceVerification.approve (v : EvidenceVerification) (c : Commitment)
    (verified_by : Nat) (notes : String) (now : DateTime) : VApproveOutcome :=
  if v.status = VStatus.approved ∨ v.status = VStatus.rejected then
    { raised := some "Cannot approve verification with this status",
      verification := v, commitment := c }
  else
    let v1 := { v with
      status := VStatus.approved,
      verified_by := some verified_by,
      notes := notes,
      verified_at := some now }
    if c.status = CStatus.active ∨ c.status = CStatus.under_review then
      match c.mark_completed now with
      | Except.ok c1 => { raised := none, verification := v1, commitment := c1 }
      | Except.error e => { raised := some e, verification := v1, commitment := c }
    else
      { raised := none, verification := v1, commitment := c }

/-- `EvidenceVerification.request_more_info`: no status guard at all; always
sets `needs_more_info` with reviewer, notes and timestamp.  It never reads
or writes the parent commitment. -/
def EvidenceVerification.request_more_info (v : EvidenceVerification)
    (verified_by : Nat) (notes : String) (now : DateTime) : EvidenceVerification :=
  { v with
    status := VStatus.needs_more_info,
    verified_by := some verified_by,
    notes := notes,
    verified_at := some now }

/-- `EvidenceVerificationService.request_more_info`: delegates to the model
method and logs; the parent commitment is passed through untouched. -/
def EvidenceVerificationService.request_more_info (v : EvidenceVerification)
    (c : Commitment) (verified_by : Nat) (notes : String) (now : DateTime) :
    EvidenceVerification × Commitment :=
  (v.request_more_info verified_by notes now, c)

/-! Concrete sample records used by witnesses and counterexamples. -/

/-- A reference timestamp: 2025-01-10, noon. -/
def dJan10 : DateTime := ⟨2025, 1, 10, 43200⟩

/-- A later reference timestamp: 2025-01-11, noon. -/
def dJan11 : DateTime := ⟨2025, 1, 11, 43200⟩

/-- A timestamp past `baseC`'s deadline: 2025-02-05, noon. -/
def dFeb5 : DateTime := ⟨2025, 2, 5, 43200⟩

/-- A baseline commitment record used to build concrete test inputs. -/
def baseC : Commitment :=
  { title := "Morning run"
    description := "Run 5km before 9am"
    start_time := ⟨2025, 1, 1, 0⟩
    end_time := ⟨2025, 1, 31, 0⟩
    frequency := Frequency.one_time
    custom_days := ""
    stake_type := StakeType.social
    stake_amount := none
    currency := Currency.inr
    leniency := Leniency.normal
    evidence_required := true
    evidence_type := EvidenceType.self_verification
    evidence_file := none
    evidence_text := ""
    evidence_submitted := false
    evidence_submitted_at := none
    complaints_flagged := false
    complaint := none
    completed_at := none
    activated_at := none
    status := CStatus.draft }

/-- Status of the commitment after an operation: the updated status on
success, the original one when the operation raised (the raise happens
before any mutation is saved). -/
def resultStatus (c : Commitment) (r : Except String Commitment) : CStatus :=
  match r with
  | Except.ok c2 => c2.status
  | Except.error _ => c.status

/-- An active self-verification commitment (activated `baseC`). -/
def cActive : Commitment := { baseC with status := CStatus.active }

/-- A completed commitment. -/
def cCompleted : Commitment := { baseC with status := CStatus.completed }

/-- A cancelled commitment. -/
def cCancelled : Commitment := { baseC with status := CStatus.cancelled }

/-- A failed commitment. -/
def cFailed : Commitment := { baseC with status := CStatus.failed }

/-- A recurring daily commitment with real money at stake. -/
def cMoneyDaily : Commitment :=
  { baseC with
    status := CStatus.active, frequency := Frequency.daily,
    stake_type := StakeType.money, stake_amount := some 5000 }

/-- A monthly commitment whose window starts Jan 31, 2025 (non-leap year). -/
def cJan31NonLeap : Commitment :=
  { baseC with
    frequency := Frequency.monthly,
    start_time := ⟨2025, 1, 31, 43200⟩, end_time := ⟨2025, 1, 31, 82800⟩ }

/-- A monthly commitment whose window starts Jan 31, 2024 (leap year). -/
def cJan31Leap : Commitment :=
  { baseC with
    frequency := Frequency.monthly,
    start_time := ⟨2024, 1, 31, 43200⟩, end_time := ⟨2024, 1, 31, 82800⟩ }

/-- A pending complaint. -/
def cpPending : Complaint :=
  { status := ComplaintStatus.pending, reviewed_by := none, review_notes := "",
    reviewed_at := none, refund_amount := none, refund_processed := false }

/-- A pending evidence verification. -/
def vPending : EvidenceVerification :=
  { status := VStatus.pending, verified_by := none, notes := "", verified_at := none }

/-- An already-approved evidence verification. -/
def vApproved : EvidenceVerification :=
  { status := VStatus.approved, verified_by := some 1, notes := "ok",
    verified_at := some dJan10 }

/-- C1: terminal states are absorbing — from `completed` or `cancelled`,
every state-machine operation (`activate`, `submit_evidence`,
`mark_completed`, `mark_failed`, `pause`, `resume`, `cancel`) raises, and
since the raise happens before any mutation, the status is unchanged. -/
theorem terminal_states_absorbing (c : Commitment) (now : DateTime)
    (et : Option EvidenceType) (ed : Option String) (txt reason : String)
    (h : c.status = CStatus.completed ∨ c.status = CStatus.cancelled) :
    (∃ e, c.activate now = Except.error e) ∧
    (∃ e, c.submit_evidence et ed txt now = Except.error e) ∧
    (∃ e, c.mark_completed now = Except.error e) ∧
    (∃ e, c.mark_failed reason now = Except.error e) ∧
    (∃ e, c.pause = Except.error e) ∧
    (∃ e, c.resume now = Except.error e) ∧
    (∃ e, c.cancel = Except.error e) := by
  refine ⟨?_, ?_, ?_, ?_, ?_, ?_, ?_⟩ <;> rcases h with h | h <;>
    simp [Commitment.activate, Commitment.submit_evidence, Commitment.mark_completed,
      Commitment.mark_failed, Commitment.pause, Commitment.resume, Commitment.cancel, h]

/-- Witness for C1 at a concrete completed commitment. -/
theorem terminal_states_absorbing_witness :
    (cCompleted.status = CStatus.completed ∨ cCompleted.status = CStatus.cancelled) ∧
    ((∃ e, cCompleted.activate dJan10 = Except.error e) ∧
     (∃ e, cCompleted.submit_evidence none none "" dJan10 = Except.error e) ∧
     (∃ e, cCompleted.mark_completed dJan10 = Except.error e) ∧
     (∃ e, cCompleted.mark_failed "" dJan10 = Except.error e) ∧
     (∃ e, cCompleted.pause = Except.error e) ∧
     (∃ e, cCompleted.resume dJan10 = Except.error e) ∧
     (∃ e, cCompleted.cancel = Except.error e)) :=
  ⟨Or.inl rfl,
   terminal_states_absorbing cCompleted dJan10 none none "" "" (Or.inl rfl)⟩

/-- C3 counterexample: a draft self-verification commitment is not rejected
by `mark_completed` — it is marked completed, refuting the claim that every
status other than `active`/`under_review` signals an error. -/
theorem mark_completed_draft_counterexample :
    baseC.status = CStatus.draft ∧
    baseC.mark_completed dJan10 =
      Except.ok { baseC with status := CStatus.completed, completed_at := some dJan10 } :=
  ⟨rfl, rfl⟩

/-- C3 (amended): `mark_completed` is rejected from `completed`, `cancelled`
and `failed`, and otherwise succeeds exactly when the commitment is
self-verification or currently `under_review` (so also from `draft`,
`paused` and `appealed` for self-verification commitments); on success it
sets the status to `completed` and stamps `completed_at`, and in every other
case it raises. -/
theorem mark_completed_valid_statuses (c : Commitment) (now : DateTime) :
    if c.status ≠ CStatus.completed ∧ c.status ≠ CStatus.cancelled ∧
        c.status ≠ CStatus.failed ∧
        (c.evidence_type = EvidenceType.self_verification ∨ c.status = CStatus.under_review) then
      c.mark_completed now =
        Except.ok { c with status := CStatus.completed, completed_at := some now }
    else
      ∃ e, c.mark_completed now = Except.error e := by
  cases hs : c.status <;> cases he : c.evidence_type <;>
    simp [Commitment.mark_completed, hs, he]

/-- C8 counterexample: `mark_failed` on an already-failed commitment raises
instead of succeeding, refuting the claim that it is valid from every
status except `completed` and `cancelled`. -/
theorem mark_failed_already_failed_counterexample :
    cFailed.status = CStatus.failed ∧
    cFailed.mark_failed "missed again" dJan10 =
      Except.error "Contract is already marked as failed" :=
  ⟨rfl, rfl⟩

/-- C8 (amended): `mark_failed` succeeds from every status except
`completed`, `cancelled` and `failed` — setting the status to `failed`,
stamping `completed_at` and recording a non-empty reason — and raises from
those three. -/
theorem mark_failed_valid_statuses (c : Commitment) (reason : String) (now : DateTime) :
    if c.status ≠ CStatus.completed ∧ c.status ≠ CStatus.cancelled ∧
        c.status ≠ CStatus.failed then
      c.mark_failed reason now =
        Except.ok { c with
          status := CStatus.failed,
          complaint := if reason ≠ "" then some reason else c.complaint,
          completed_at := some now }
    else
      ∃ e, c.mark_failed reason now = Except.error e := by
  cases hs : c.status <;> simp [Commitment.mark_failed, hs]

/-- C2 (code-bug exhibit): approving a pending verification whose parent
commitment is cancelled does not fail — no exception escapes, the
verification is persisted as `approved`, and the parent stays `cancelled`
and uncompleted, because `EvidenceVerification.approve` saves the
verification first and only conditionally touches the parent. -/
theorem approve_on_cancelled_parent_succeeds :
    vPending.status = VStatus.pending ∧
    cCancelled.status = CStatus.cancelled ∧
    EvidenceVerification.approve vPending cCancelled 7 "looks fine" dJan10 =
      { raised := none,
        verification := { vPending with
          status := VStatus.approved, verified_by := some 7,
          notes := "looks fine", verified_at := some dJan10 },
        commitment := cCancelled } :=
  ⟨rfl, rfl, rfl⟩

/-- C4: approving a pending complaint whose parent commitment is failed
marks the complaint approved and moves the parent to `appealed`; a second
`approve` on the resulting complaint raises, so the parent transitions to
`appealed` exactly once. -/
theorem complaint_double_approve (cp : Complaint) (c : Commitment)
    (rb rb2 : Nat) (rn rn2 : String) (ra ra2 : Option Int) (t1 t2 : DateTime)
    (hcp : cp.status = ComplaintStatus.pending)
    (hc : c.status = CStatus.failed) :
    ∃ cp1 c1,
      Complaint.approve cp c rb rn ra t1 = Except.ok (cp1, c1) ∧
      cp1.status = ComplaintStatus.approved ∧
      c1.status = CStatus.appealed ∧
      ∃ e, Complaint.approve cp1 c1 rb2 rn2 ra2 t2 = Except.error e := by
  refine ⟨{ cp with
      status := ComplaintStatus.approved,
      reviewed_by := some rb,
      review_notes := rn,
      reviewed_at := some t1,
      refund_amount := match ra with
        | some a => some a
        | none => c.stake_amount },
    { c with status := CStatus.appealed }, ?_, rfl, rfl, ?_⟩
  · simp [Complaint.approve, hcp, hc]
  · exact ⟨_, rfl⟩

/-- Witness for C4 at a concrete pending complaint on a failed commitment. -/
theorem complaint_double_approve_witness :
    cpPending.status = ComplaintStatus.pending ∧
    cFailed.status = CStatus.failed ∧
    (∃ cp1 c1,
      Complaint.approve cpPending cFailed 3 "granted" none dJan10 = Except.ok (cp1, c1) ∧
      cp1.status = ComplaintStatus.approved ∧
      c1.status = CStatus.appealed ∧
      ∃ e, Complaint.approve cp1 c1 4 "again" none dJan11 = Except.error e) :=
  ⟨rfl, rfl,
   complaint_double_approve cpPending cFailed 3 4 "granted" "again" none none
     dJan10 dJan11 rfl rfl⟩

/-- C5 counterexample: a self-verification commitment, given a
`submit_evidence` call that passes `photo` as the evidence-type argument,
has its stored evidence type overwritten and is moved to `under_review`,
refuting the claim that the status never moves for any argument. -/
theorem submit_evidence_override_counterexample :
    cActive.evidence_type = EvidenceType.self_verification ∧
    cActive.status = CStatus.active ∧
    cActive.submit_evidence (some EvidenceType.photo) none "" dJan10 =
      Except.ok { cActive with
        evidence_type := EvidenceType.photo,
        evidence_submitted := true, evidence_submitted_at := some dJan10,
        status := CStatus.under_review } :=
  ⟨rfl, rfl, rfl⟩

/-- C5 (amended): for a self-verification commitment, a `submit_evidence`
call that does not override the evidence type (argument absent or itself
`self_verification`) never changes the status — in particular it never
moves to `under_review`; with a different evidence-type argument the stored
type is overwritten first and the branch is decided by the new type. -/
theorem submit_evidence_self_verification_stays (c : Commitment)
    (et : Option EvidenceType) (ed : Option String) (txt : String) (now : DateTime)
    (hself : c.evidence_type = EvidenceType.self_verification)
    (harg : et = none ∨ et = some EvidenceType.self_verification) :
    resultStatus c (c.submit_evidence et ed txt now) = c.status := by
  rcases harg with h | h <;> subst h <;> rcases ed with _ | d <;>
    by_cases htxt : txt = "" <;>
    by_cases h1 : c.status = CStatus.active ∨ c.status = CStatus.paused <;>
    by_cases h2 : c.evidence_required <;>
    by_cases h3 : DateTime.ltb c.end_time now = true <;>
    simp [Commitment.submit_evidence, resultStatus, hself, htxt, h1, h2, h3]

/-- Witness for C5 at a concrete active self-verification commitment. -/
theorem submit_evidence_self_verification_stays_witness :
    cActive.evidence_type = EvidenceType.self_verification ∧
    ((some EvidenceType.self_verification : Option EvidenceType) = none ∨
      (some EvidenceType.self_verification : Option EvidenceType) =
        some EvidenceType.self_verification) ∧
    resultStatus cActive
      (cActive.submit_evidence (some EvidenceType.self_verification) none "done" dJan10) =
      cActive.status :=
  ⟨rfl, Or.inr rfl,
   submit_evidence_self_verification_stays cActive
     (some EvidenceType.self_verification) none "done" dJan10 rfl (Or.inr rfl)⟩

/-- C6: recurrence interval arithmetic — `one_time` spawns nothing; daily,
weekly and monthly successors have both window bounds advanced by one day,
seven days, and one calendar month (day clamped to the target month's
length); concretely, a monthly commitment starting Jan 31, 2025 spawns a
successor starting Feb 28, 2025 and one starting Jan 31, 2024 spawns a
successor starting Feb 29, 2024. -/
theorem recurrence_interval_arithmetic (c : Commitment) (now : DateTime) :
    (if c.frequency = Frequency.one_time then
      c.create_next_instance now = none
    else if c.frequency = Frequency.daily then
      ∃ n, c.create_next_instance now = some n ∧
        n.start_time = c.start_time.addDays 1 ∧ n.end_time = c.end_time.addDays 1
    else if c.frequency = Frequency.weekly then
      ∃ n, c.create_next_instance now = some n ∧
        n.start_time = c.start_time.addDays 7 ∧ n.end_time = c.end_time.addDays 7
    else if c.frequency = Frequency.monthly then
      ∃ n, c.create_next_instance now = some n ∧
        n.start_time = c.start_time.addMonths1 ∧ n.end_time = c.end_time.addMonths1
    else
      c.create_next_instance now = none) ∧
    (∃ n, cJan31NonLeap.create_next_instance now = some n ∧
      n.start_time = ⟨2025, 2, 28, 43200⟩) ∧
    (∃ n, cJan31Leap.create_next_instance now = some n ∧
      n.start_time = ⟨2024, 2, 29, 43200⟩) := by
  refine ⟨?_, ⟨_, rfl, rfl⟩, ⟨_, rfl, rfl⟩⟩
  cases hf : c.frequency <;>
    simp [Commitment.create_next_instance, hf, Commitment.spawnedInstance]

/-- C7 (code-bug exhibit): the successor spawned for a recurring money
commitment copies title, description, stake amount, currency, leniency,
frequency and the evidence configuration, and is created `active` with
`activated_at` set — but its `stake_type` is `social`, not the original
`money`, because the spawning `create` call omits `stake_type` and the
field default applies. -/
theorem spawned_instance_loses_stake_type :
    cMoneyDaily.stake_type = StakeType.money ∧
    ∃ n, cMoneyDaily.create_next_instance dJan10 = some n ∧
      n.title = cMoneyDaily.title ∧
      n.description = cMoneyDaily.description ∧
      n.stake_amount = cMoneyDaily.stake_amount ∧
      n.currency = cMoneyDaily.currency ∧
      n.leniency = cMoneyDaily.leniency ∧
      n.frequency = cMoneyDaily.frequency ∧
      n.evidence_required = cMoneyDaily.evidence_required ∧
      n.evidence_type = cMoneyDaily.evidence_type ∧
      n.status = CStatus.active ∧
      n.activated_at = some dJan10 ∧
      n.stake_type = StakeType.social :=
  ⟨rfl, _, rfl, rfl, rfl, rfl, rfl, rfl, rfl, rfl, rfl, rfl, rfl, rfl⟩

/-- C9 counterexample: `request_more_info` on an already-approved
verification does not raise — it resets the status to `needs_more_info`,
refuting the claim that it is valid only from `pending`. -/
theorem request_more_info_from_approved_counterexample :
    vApproved.status = VStatus.approved ∧
    (vApproved.request_more_info 2 "need timestamps" dJan11).status =
      VStatus.needs_more_info :=
  ⟨rfl, rfl⟩

/-- C9 (amended): `request_more_info` has no status guard — from every
verification status it succeeds, setting the status to `needs_more_info`
with reviewer, notes and timestamp, and (also through the service wrapper)
it never changes the parent commitment. -/
theorem request_more_info_unguarded (v : EvidenceVerification) (c : Commitment)
    (rb : Nat) (n : String) (now : DateTime) :
    (EvidenceVerificationService.request_more_info v c rb n now).1.status =
      VStatus.needs_more_info ∧
    (EvidenceVerificationService.request_more_info v c rb n now).2 = c ∧
    (v.request_more_info rb n now).verified_by = some rb ∧
    (v.request_more_info rb n now).notes = n ∧
    (v.request_more_info rb n now).verified_at = some now :=
  ⟨rfl, rfl, rfl, rfl, rfl⟩

/-- C10: `mark_completed` performs no deadline check — an active
self-verification commitment is marked completed even strictly after its
`end_time`, while `submit_evidence` at the same moment (with any evidence
type supplied) is rejected with the deadline error. -/
theorem mark_completed_ignores_deadline (c : Commitment) (now : DateTime)
    (ed : Option String) (txt : String) (et : EvidenceType)
    (hself : c.evidence_type = EvidenceType.self_verification)
    (hact : c.status = CStatus.active)
    (hlate : DateTime.ltb c.end_time now = true) :
    c.mark_completed now =
      Except.ok { c with status := CStatus.completed, completed_at := some now } ∧
    c.submit_evidence (some et) ed txt now =
      Except.error "Cannot submit evidence after deadline" := by
  constructor
  · simp [Commitment.mark_completed, hact, hself]
  · simp [Commitment.submit_evidence, hact, hlate]

/-- Witness for C10 at a concrete overdue active commitment. -/
theorem mark_completed_ignores_deadline_witness :
    cActive.evidence_type = EvidenceType.self_verification ∧
    cActive.status = CStatus.active ∧
    DateTime.ltb cActive.end_time dFeb5 = true ∧
    (cActive.mark_completed dFeb5 =
      Except.ok { cActive with status := CStatus.completed, completed_at := some dFeb5 } ∧
     cActive.submit_evidence (some EvidenceType.photo) none "" dFeb5 =
      Except.error "Cannot submit evidence after deadline") :=
  ⟨rfl, rfl, rfl,
   mark_completed_ignores_deadline cActive dFeb5 none "" EvidenceType.photo rfl rfl rfl⟩

end Commitments
